import Mathlib

/-!
Verification of the coderev codespaces system (client + server) against its
natural-language specification.  The Python sources are shallowly embedded:

* `Server` models `src/server/api_server.py`: the auth-token one-shot
  endpoint, the buffered `/ask` handler, and the streaming `/ask/stream`
  generator.  Stateful constructs (the asyncio lock, subprocess kills, SSE
  frames) are reified as an explicit event trace produced by each handler.
  The agent subprocess and Python's `json` module are external collaborators;
  their observable behaviour is a parameter of the model (exit code, raw
  stdout, parse result / line sequence, timing flags).
* `Auth` models `src/client/src/coderev/auth.py`: the one-time claim with
  cache fallback, including the cache-file failure modes.
* `Codespace` models `src/client/src/coderev/codespace.py`: `find_or_create`
  and the `wait_until_available` polling loop (abstract integer time; a poll
  is instantaneous and each sleep advances time by the poll interval).
-/

/-- Except values are compared structurally (needed to evaluate handler
results on concrete inputs). -/
instance {ε α : Type} [DecidableEq ε] [DecidableEq α] :
    DecidableEq (Except ε α)
  | .error e1, .error e2 =>
    if h : e1 = e2 then isTrue (by rw [h])
    else isFalse (fun hh => h (Except.error.inj hh))
  | .error _, .ok _ => isFalse (fun h => Except.noConfusion h)
  | .ok _, .error _ => isFalse (fun h => Except.noConfusion h)
  | .ok a1, .ok a2 =>
    if h : a1 = a2 then isTrue (by rw [h])
    else isFalse (fun hh => h (Except.ok.inj hh))

/-- Python `str.strip()`: remove leading and trailing whitespace, modelled
over the character list (Lean's `String.trim` is equivalent but does not
reduce in the kernel). -/
def pyStrip (s : String) : String :=
  String.mk
    (((s.toList.dropWhile Char.isWhitespace).reverse.dropWhile
        Char.isWhitespace).reverse)

/-- Python `startswith`, modelled over the character list. -/
def pyStartswith (s pre : String) : Bool :=
  pre.toList.isPrefixOf s.toList

/-- Python slicing `s[n:]`, modelled over the character list. -/
def pySliceFrom (s : String) (n : Nat) : String :=
  String.mk (s.toList.drop n)

/-- Python slicing `s[:n]`, modelled over the character list. -/
def pySliceTo (s : String) (n : Nat) : String :=
  String.mk (s.toList.take n)

namespace Server

/-- Python `fastapi.HTTPException`, as raised by the server handlers. -/
structure HTTPException where
  status_code : Nat
  detail : String
deriving DecidableEq, Repr

/-- `ALLOWED_TOOLS` from api_server.py lines 20-35, verbatim. -/
def ALLOWED_TOOLS : List String :=
  [ "Read",
    "Glob",
    "Grep",
    "Bash(git *)",
    "Bash(gh *)",
    "Bash(cargo *)",
    "Bash(ls *)",
    "Bash(find *)",
    "Bash(wc *)",
    "Bash(head *)",
    "Bash(tail *)",
    "Bash(cat *)",
    "Bash(grep *)",
    "Bash(rg *)" ]

/-- Hard wall-clock timeout of the buffered `/ask` path
(`asyncio.wait_for(..., timeout=300)` and `subprocess.run(..., timeout=300)`). -/
def bufferedTimeout : Nat := 300

/-- Hard timeout of the streaming path
(`asyncio.wait_for(proc.wait(), timeout=120)`). -/
def streamTimeout : Nat := 120

/-- `_verify_auth` (api_server.py lines 42-46).  `authorization` is the raw
header value, absent when the header is missing. -/
def verify_auth (AUTH_TOKEN : String) (authorization : Option String) :
    Except HTTPException Unit :=
  match authorization with
  | none => .error ⟨401, "Missing bearer token"⟩
  | some a =>
    if ¬ pyStartswith a "Bearer " then .error ⟨401, "Missing bearer token"⟩
    else if pySliceFrom a 7 ≠ AUTH_TOKEN then .error ⟨403, "Invalid token"⟩
    else .ok ()

/-- Observable events of a request handler: lock transitions of
`claude_lock`, subprocess spawn/kill, and SSE frames yielded. -/
inductive Ev where
  | acquire
  | release
  | spawn
  | kill
  | frame (s : String)
deriving DecidableEq, Repr

/-- Number of lock acquisitions in a trace. -/
def acquireCount (t : List Ev) : Nat := t.count Ev.acquire

/-- Scan a trace tracking how many times the single-permit `claude_lock` is
held; `none` marks a release without a matching acquire (or a re-entrant
acquire, which `asyncio.Lock` would deadlock on). -/
def slotScan : Nat → List Ev → Option Nat
  | h, [] => some h
  | h, Ev.acquire :: r => if h = 0 then slotScan 1 r else none
  | h, Ev.release :: r => if h = 1 then slotScan 0 r else none
  | h, Ev.spawn :: r => slotScan h r
  | h, Ev.kill :: r => slotScan h r
  | h, Ev.frame _ :: r => slotScan h r

/-- The slot discipline of one request: every acquire is matched, the lock
is never released when free, and the lock is free when the trace ends. -/
def slotOk (t : List Ev) : Prop := slotScan 0 t = some 0 ∧ acquireCount t ≤ 1

instance (t : List Ev) : Decidable (slotOk t) := by
  unfold slotOk; infer_instance

/-- `POST /auth-token` (api_server.py lines 82-89): one step of the
endpoint, threading the module-global `auth_token_claimed` flag. -/
def claim_auth_token (AUTH_TOKEN : String) (claimed : Bool) :
    Bool × Except HTTPException String :=
  if claimed then (claimed, .error ⟨410, "Token already claimed"⟩)
  else (true, .ok AUTH_TOKEN)

/-- The responses of `n` successive `/auth-token` calls against one server
process whose claimed flag starts at `claimed`. -/
def runClaims (AUTH_TOKEN : String) (claimed : Bool) :
    Nat → List (Except HTTPException String)
  | 0 => []
  | n + 1 =>
    let step := claim_auth_token AUTH_TOKEN claimed
    step.2 :: runClaims AUTH_TOKEN step.1 n

/-- The parsed JSON document of the agent's buffered output, as consumed by
`ask` (api_server.py lines 180-195).  Only the fields the handler reads are
modelled; `result.get("result", "")` defaulting is kept, and the usage /
cost extraction (floats, pass-through numbers) is outside the claims. -/
structure ResultObj where
  result : Option String
  subtype : Option String
  session_id : Option String
deriving DecidableEq, Repr

/-- Observable outcome of `subprocess.run` on the agent command: exit code,
raw stdout/stderr text, and the result of `json.loads` on the stdout
(`none` = the external JSON parser raises). -/
structure ProcResult where
  returncode : Int
  stdout : String
  parsed : Option ResultObj
  stderr : String

/-- Either the subprocess finishes within the 300 s deadline, or it exceeds
it (asyncio.wait_for fires and subprocess.run's own timeout kills it). -/
inductive RunOutcome where
  | completes (p : ProcResult)
  | timesOut

/-- Response of the buffered endpoint; `duration_seconds` (wall-clock) and
the sparse `usage` map are not modelled by any claim. -/
structure AskResponse where
  answer : String
  session_id : Option String
deriving DecidableEq, Repr

/-- `POST /ask` (api_server.py lines 156-196) together with `_run_claude`
(lines 206-221), as a trace of lock/subprocess events plus the HTTP result.
Control flow from source: auth check before the lock; `async with
claude_lock` spans the `wait_for`; the 504 and the crash 502 are raised
inside the `with` (the lock is released as the exception propagates);
JSON parsing happens after the lock is released. -/
def ask (AUTH_TOKEN : String) (authorization : Option String)
    (outcome : RunOutcome) : List Ev × Except HTTPException AskResponse :=
  match verify_auth AUTH_TOKEN authorization with
  | .error e => ([], .error e)
  | .ok _ =>
    match outcome with
    | .timesOut =>
      -- wait_for(timeout=300) raises asyncio.TimeoutError and subprocess.run's
      -- own timeout=300 kills the child.  (The detail string in the source says
      -- "120s" even though the configured timeout is 300 s.)
      ([.acquire, .spawn, .kill, .release],
       .error ⟨504, "Claude timed out (120s)"⟩)
    | .completes p =>
      if p.returncode ≠ 0 ∧ p.stdout = "" then
        ([.acquire, .spawn, .release],
         .error ⟨502, "Claude failed: " ++ pySliceTo p.stderr 500⟩)
      else
        match p.parsed with
        | none =>
          ([.acquire, .spawn, .release],
           .error ⟨502, "Failed to parse Claude output: " ++
             pySliceTo p.stdout 500⟩)
        | some doc =>
          let answer0 := doc.result.getD ""
          let answer := if answer0 = "" then doc.subtype.getD "No answer returned"
                        else answer0
          ([.acquire, .spawn, .release],
           .ok { answer := answer, session_id := doc.session_id })

/-- Observable behaviour of the streaming agent subprocess: the decoded
stdout lines it produces, whether its stdout ever reaches EOF, and — once
stdout is closed — whether `proc.wait()` completes within the 120 s
deadline. -/
structure StreamBehavior where
  lines : List String
  stdoutCloses : Bool
  exitsWithinTimeout : Bool
deriving DecidableEq, Repr

/-- The `[DONE]` sentinel frame (api_server.py line 248). -/
def doneFrame : String := "data: [DONE]\n\n"

/-- The timeout error frame: `data: {json.dumps({'error': 'timeout'})}`
(api_server.py line 247). -/
def timeoutFrame : String := "data: \x7b\"error\": \"timeout\"\x7d\n\n"

/-- Frames yielded by the `async for line in proc.stdout` loop (lines
240-243): each line is decoded and stripped; empty results yield nothing. -/
def lineFrames (lines : List String) : List Ev :=
  lines.filterMap (fun l =>
    let decoded := pyStrip l
    if decoded = "" then none
    else some (Ev.frame ("data: " ++ decoded ++ "\n\n")))

/-- The `generate` async generator of `/ask/stream` (api_server.py lines
230-248), as (event trace, whether the generator runs to completion).
The 120 s `wait_for` only wraps `proc.wait()`, which is reached only after
the `async for` over stdout finishes, i.e. after stdout EOF; when stdout
never closes the generator stays suspended in the `async for` with the lock
held and nothing after the loop runs. -/
def generate (b : StreamBehavior) : List Ev × Bool :=
  if b.stdoutCloses then
    if b.exitsWithinTimeout then
      (Ev.acquire :: Ev.spawn :: lineFrames b.lines ++
        [Ev.frame doneFrame, Ev.release], true)
    else
      (Ev.acquire :: Ev.spawn :: lineFrames b.lines ++
        [Ev.kill, Ev.frame timeoutFrame, Ev.frame doneFrame, Ev.release], true)
  else
    (Ev.acquire :: Ev.spawn :: lineFrames b.lines, false)

/-- `POST /ask/stream` (api_server.py lines 224-250): auth check, then the
generator's behaviour. -/
def ask_stream (AUTH_TOKEN : String) (authorization : Option String)
    (b : StreamBehavior) : Except HTTPException (List Ev × Bool) :=
  match verify_auth AUTH_TOKEN authorization with
  | .error e => .error e
  | .ok _ => .ok (generate b)

/-- The SSE frames of a trace, in order. -/
def framesOf (t : List Ev) : List String :=
  t.filterMap (fun e => match e with | Ev.frame s => some s | _ => none)

end Server

namespace Auth

/-- Python JSON values as produced by `json.loads` (the parser itself is the
external `json` module; the embedding works with its result). -/
inductive PyJson where
  | null
  | bool (b : Bool)
  | num (n : Int)
  | str (s : String)
  | arr (xs : List PyJson)
  | obj (fields : List (String × PyJson))

/-- Python truthiness (`if cached:`) on JSON values. -/
def pyTruthy : PyJson → Bool
  | .null => false
  | .bool b => b
  | .num n => n ≠ 0
  | .str s => s ≠ ""
  | .arr xs => ¬ xs.isEmpty
  | .obj fields => ¬ fields.isEmpty

/-- Python `dict.get(k)`: the value at key `k` or `None`.  JSON objects from
`json.loads` have distinct keys, so first match suffices. -/
def dictGet (fields : List (String × PyJson)) (k : String) : Option PyJson :=
  match fields.find? (fun p => p.1 = k) with
  | some p => some p.2
  | none => none

/-- Python exceptions distinguished by the client auth flow.  `runtimeError`
is Python's builtin `RuntimeError`; the httpx transport and HTTP-status
exceptions and the lookup errors are not `RuntimeError` subclasses, which is
what `except RuntimeError` in `get_auth_token` relies on. -/
inductive PyError where
  | runtimeError (msg : String)
  | httpxTransport (msg : String)
  | httpStatusError (code : Nat)
  | keyError (k : String)
  | attributeError (attr : String)
deriving DecidableEq, Repr

/-- Observable outcome of `httpx.post(f"{base_url}/auth-token")`: either the
transport raises, or a response arrives with a status code and — for the
path `resp.json()["token"]` — an optional string token in the body (`none`
models a body where that lookup raises). -/
inductive HttpResult where
  | transportFailure (msg : String)
  | response (status : Nat) (tokenField : Option String)
deriving DecidableEq, Repr

/-- The message of both the 410 `RuntimeError` in `_claim_auth_token` and
the terminal `RuntimeError` in `get_auth_token` (auth.py lines 50-53 and
62-65 carry the identical two-part string literal). -/
def alreadyClaimedMsg : String :=
  "Auth token already claimed and not in local cache. " ++
    "Restart the codespace server to generate a new token."

/-- `_claim_auth_token` (auth.py lines 56-67): 410 raises `RuntimeError`;
any other 4xx/5xx raises `httpx.HTTPStatusError` via `raise_for_status`;
otherwise the token is read from the JSON body. -/
def claim_auth_token (r : HttpResult) : Except PyError String :=
  match r with
  | .transportFailure m => .error (.httpxTransport m)
  | .response status tokenField =>
    if status = 410 then .error (.runtimeError alreadyClaimedMsg)
    else if 400 ≤ status then .error (.httpStatusError status)
    else
      match tokenField with
      | some t => .ok t
      | none => .error (.keyError "token")

/-- The per-session token cache file, as `_load_cached_token` observes it:
missing, present but unreadable (`OSError`), unparseable
(`json.JSONDecodeError`), or parsed to a JSON value. -/
inductive CacheFile where
  | missing
  | unreadable (msg : String)
  | invalidJson
  | parsed (v : PyJson)

/-- `_load_cached_token` (auth.py lines 74-82).  Missing file, `OSError`
and `JSONDecodeError` are absorbed to `None`; on a parsed JSON object the
`token` field is looked up with `.get`; on any other parsed JSON value
`data.get("token")` raises `AttributeError`, which the
`except (json.JSONDecodeError, OSError)` clause does not catch. -/
def load_cached_token (f : CacheFile) : Except PyError (Option PyJson) :=
  match f with
  | .missing => .ok none
  | .unreadable _ => .ok none
  | .invalidJson => .ok none
  | .parsed (.obj fields) => .ok (dictGet fields "token")
  | .parsed _ => .error (.attributeError "get")

/-- Observable side effects of `get_auth_token`. -/
inductive AuthEv where
  | claimRequest
  | saveToken (codespace_name token : String)
  | readCache (codespace_name : String)
deriving DecidableEq, Repr

/-- `get_auth_token` (auth.py lines 35-53): always claim first; on success
persist to the cache before returning; `except RuntimeError: pass` falls
through to the cache; a truthy cached value is returned, otherwise the
terminal `RuntimeError` is raised.  Any non-`RuntimeError` failure of the
claim — and any uncaught error from the cache read — propagates. -/
def get_auth_token (codespace_name : String) (r : HttpResult)
    (f : CacheFile) : List AuthEv × Except PyError PyJson :=
  match claim_auth_token r with
  | .ok token =>
    ([.claimRequest, .saveToken codespace_name token], .ok (.str token))
  | .error (.runtimeError _) =>
    match load_cached_token f with
    | .error e => ([.claimRequest, .readCache codespace_name], .error e)
    | .ok none =>
      ([.claimRequest, .readCache codespace_name],
       .error (.runtimeError alreadyClaimedMsg))
    | .ok (some v) =>
      if pyTruthy v then
        ([.claimRequest, .readCache codespace_name], .ok v)
      else
        ([.claimRequest, .readCache codespace_name],
         .error (.runtimeError alreadyClaimedMsg))
  | .error e => ([.claimRequest], .error e)

end Auth

/-- Substring test over character lists (used to state what information a
Python exception message carries). -/
def strContains (s sub : String) : Bool :=
  (List.range (s.toList.length + 1)).any
    (fun i => sub.toList.isPrefixOf (s.toList.drop i))

namespace Codespace

/-- GitHub API calls issued by `CodespaceManager.find_or_create`
(codespace.py lines 111-138).  `waitPolls` stands for the whole
`wait_until_available` call, which issues only non-mutating GET status
polls (lines 91-109). -/
inductive Call where
  | findList
  | create
  | start (name : String)
  | waitPolls (name : String)
deriving DecidableEq, Repr

/-- Environment of one `find_or_create` run: the result of `find` (name and
`state` field of the matching codespace, defaulted to "Unknown" by the
source when absent), the `name` of the codespace a `create` call would
return, and whether `wait_until_available` returns (vs. raising
`TimeoutError`, which propagates). -/
structure FindEnv where
  found : Option (String × String)
  createdName : String
  waitOk : Bool

/-- `find_or_create` (codespace.py lines 111-138) as (API-call trace,
result); `Except.error ()` is the propagating `TimeoutError` of
`wait_until_available`. -/
def find_or_create (env : FindEnv) : List Call × Except Unit String :=
  let waitRes : String → Except Unit String :=
    fun n => if env.waitOk then .ok n else .error ()
  match env.found with
  | some (name, state) =>
    if state = "Available" then
      ([.findList], .ok name)
    else if state = "Shutdown" ∨ state = "ShuttingDown" then
      ([.findList, .start name, .waitPolls name], waitRes name)
    else
      ([.findList, .waitPolls name], waitRes name)
  | none =>
    ([.findList, .create, .waitPolls env.createdName], waitRes env.createdName)

/-- The message of the `TimeoutError` raised by `wait_until_available`
(codespace.py lines 106-109). -/
def bootTimeoutMsg (codespace_name : String) (timeout : Nat) : String :=
  "Codespace " ++ codespace_name ++ " did not become Available within " ++
    toString timeout ++ "s"

/-- Modelled from the spec: `CODESPACE_BOOT_TIMEOUT` and
`CODESPACE_POLL_INTERVAL` are imported from `coderev.config`, which is not
among the sources; the spec fixes only that the boot wait uses a bounded
deadline and a fixed-interval sleep, so both are parameters (`deadline`,
`interval`), with the interval positive.  Time is abstract: a status poll
is instantaneous and each `time.sleep(CODESPACE_POLL_INTERVAL)` advances
the clock by `interval`.  This is the `while time.monotonic() < deadline`
loop of `wait_until_available` (codespace.py lines 95-109): `states i` is
the `state` field of the i-th poll response, `lastObs` the most recently
observed state; on reaching `Available` the loop returns, otherwise it
sleeps and re-polls; past the deadline it raises `TimeoutError`.  Returns
(final clock, last observed state, result). -/
def waitLoop (interval deadline : Nat) (hI : 0 < interval)
    (codespace_name : String) (states : Nat → String) (i now : Nat)
    (lastObs : Option String) : Nat × Option String × Except String Unit :=
  if h : now < deadline then
    if states i = "Available" then
      (now, some (states i), .ok ())
    else
      waitLoop interval deadline hI codespace_name states (i + 1)
        (now + interval) (some (states i))
  else
    (now, lastObs, .error (bootTimeoutMsg codespace_name deadline))
termination_by deadline - now
decreasing_by omega

/-- `wait_until_available`, started at clock 0 with deadline
`0 + timeout`. -/
def wait_until_available (timeout interval : Nat) (hI : 0 < interval)
    (codespace_name : String) (states : Nat → String) :
    Nat × Option String × Except String Unit :=
  waitLoop interval timeout hI codespace_name states 0 0 none

end Codespace

/- ------------------------------------------------------------------ -/
/- Theorems                                                            -/
/- ------------------------------------------------------------------ -/

/-- Helper: once `auth_token_claimed` is set, every later call yields 410. -/
theorem runClaims_claimed (tok : String) (n : Nat) :
    Server.runClaims tok true n =
      List.replicate n (Except.error ⟨410, "Token already claimed"⟩) := by
  induction n with
  | zero => rfl
  | succ n ih =>
    simp [Server.runClaims, Server.claim_auth_token, List.replicate, ih]

/-- C2: from a fresh server process (`auth_token_claimed = false`), the first
`/auth-token` call returns the configured token and every one of the `n`
subsequent calls fails with status 410 "Token already claimed"; the token is
released at most once per process lifetime. -/
theorem C2_auth_token_claimed_once (tok : String) (n : Nat) :
    Server.runClaims tok false (n + 1) =
      Except.ok tok ::
        List.replicate n (Except.error ⟨410, "Token already claimed"⟩) := by
  simp [Server.runClaims, Server.claim_auth_token, runClaims_claimed]

/-- Helper: every event produced by the stdout relay loop is a frame. -/
theorem lineFrames_only_frames (ls : List String) :
    ∀ e ∈ Server.lineFrames ls, ∃ s, e = Server.Ev.frame s := by
  intro e he
  unfold Server.lineFrames at he
  obtain ⟨l, -, hl⟩ := List.mem_filterMap.mp he
  by_cases h : pyStrip l = "" <;> simp [h] at hl
  exact ⟨_, hl.symm⟩

/-- Helper: frame events do not change the slot-scan state. -/
theorem slotScan_frames (fs : List Server.Ev)
    (hf : ∀ e ∈ fs, ∃ s, e = Server.Ev.frame s) (h : Nat)
    (rest : List Server.Ev) :
    Server.slotScan h (fs ++ rest) = Server.slotScan h rest := by
  induction fs with
  | nil => rfl
  | cons e fs ih =>
    obtain ⟨s, rfl⟩ := hf e (List.mem_cons_self e fs)
    simp only [List.cons_append, Server.slotScan]
    exact ih (fun e' he' => hf e' (List.mem_cons_of_mem _ he'))

/-- Helper: the relay loop never produces a lock acquisition event. -/
theorem acquire_not_mem_lineFrames (ls : List String) :
    Server.Ev.acquire ∉ Server.lineFrames ls := by
  intro hmem
  obtain ⟨s, hs⟩ := lineFrames_only_frames ls _ hmem
  exact Server.Ev.noConfusion hs

/-- Helper: slot discipline of a trace of the shape
`acquire :: spawn :: frames ++ tail`, given the tail releases once. -/
theorem slotOk_wrap (fs tail : List Server.Ev)
    (hf : ∀ e ∈ fs, ∃ s, e = Server.Ev.frame s)
    (hmem : Server.Ev.acquire ∉ fs)
    (htail : Server.slotScan 1 tail = some 0)
    (htailc : tail.count Server.Ev.acquire = 0) :
    Server.slotOk (Server.Ev.acquire :: Server.Ev.spawn :: (fs ++ tail)) ∧
    Server.acquireCount
      (Server.Ev.acquire :: Server.Ev.spawn :: (fs ++ tail)) = 1 := by
  have hcount : Server.acquireCount
      (Server.Ev.acquire :: Server.Ev.spawn :: (fs ++ tail)) = 1 := by
    unfold Server.acquireCount
    simp [List.count_cons, List.count_append, List.count_eq_zero.mpr hmem,
      htailc]
  refine ⟨⟨?_, le_of_eq hcount⟩, hcount⟩
  show Server.slotScan 0 _ = some 0
  have h1 : Server.slotScan 0
      (Server.Ev.acquire :: Server.Ev.spawn :: (fs ++ tail)) =
      Server.slotScan 1 (fs ++ tail) := by
    simp [Server.slotScan]
  rw [h1, slotScan_frames fs hf 1 tail, htail]

/-- Helper: slot discipline of the streaming generator, when it completes:
the lock is acquired exactly once, released, and free at the end. -/
theorem generate_slotOk (b : Server.StreamBehavior)
    (hc : b.stdoutCloses = true) :
    Server.slotOk (Server.generate b).1 ∧
    Server.acquireCount (Server.generate b).1 = 1 ∧
    (Server.generate b).2 = true := by
  have hf := lineFrames_only_frames b.lines
  have hmem := acquire_not_mem_lineFrames b.lines
  rcases Bool.eq_false_or_eq_true b.exitsWithinTimeout with he | he <;>
    simp only [Server.generate, hc, he, if_true, if_false, Bool.false_eq_true,
      ite_true, ite_false] <;>
    exact ⟨(slotOk_wrap _ _ hf hmem (by decide) (by decide)).1,
      (slotOk_wrap _ _ hf hmem (by decide) (by decide)).2, by trivial⟩

/-- C1: the execution slot (`claude_lock`) is acquired at most once and every
acquisition is matched by exactly one release, with the lock free afterwards,
for every buffered `/ask` request (all outcomes: auth failure, normal
completion, timeout, crash, unparseable output) and for every streaming
`/ask/stream` request whose generator runs to completion (normal, timeout);
on every authorized request the slot is acquired exactly once (hence, via
the slot scan, also released exactly once). -/
theorem C1_slot_released_every_path :
    (∀ tok auth outcome, Server.slotOk (Server.ask tok auth outcome).1) ∧
    (∀ tok auth outcome, Server.verify_auth tok auth = Except.ok () →
      Server.acquireCount (Server.ask tok auth outcome).1 = 1) ∧
    (∀ tok auth b t c, b.stdoutCloses = true →
      Server.ask_stream tok auth b = Except.ok (t, c) →
      Server.slotOk t ∧ Server.acquireCount t = 1 ∧ c = true) := by
  refine ⟨?_, ?_, ?_⟩
  · intro tok auth outcome
    cases hv : Server.verify_auth tok auth with
    | error e =>
      simp only [Server.ask, hv]
      exact (by decide : Server.slotOk [])
    | ok u =>
      cases outcome with
      | timesOut =>
        simp only [Server.ask, hv]
        exact (by decide : Server.slotOk
          [Server.Ev.acquire, Server.Ev.spawn, Server.Ev.kill,
           Server.Ev.release])
      | completes p =>
        simp only [Server.ask, hv]
        by_cases h1 : p.returncode ≠ 0 ∧ p.stdout = ""
        · rw [if_pos h1]
          exact (by decide : Server.slotOk
            [Server.Ev.acquire, Server.Ev.spawn, Server.Ev.release])
        · rw [if_neg h1]
          cases p.parsed with
          | none =>
            exact (by decide : Server.slotOk
              [Server.Ev.acquire, Server.Ev.spawn, Server.Ev.release])
          | some doc =>
            exact (by decide : Server.slotOk
              [Server.Ev.acquire, Server.Ev.spawn, Server.Ev.release])
  · intro tok auth outcome hv
    cases outcome with
    | timesOut =>
      simp only [Server.ask, hv]
      exact (by decide : Server.acquireCount
        [Server.Ev.acquire, Server.Ev.spawn, Server.Ev.kill,
         Server.Ev.release] = 1)
    | completes p =>
      simp only [Server.ask, hv]
      by_cases h1 : p.returncode ≠ 0 ∧ p.stdout = ""
      · rw [if_pos h1]
        exact (by decide : Server.acquireCount
          [Server.Ev.acquire, Server.Ev.spawn, Server.Ev.release] = 1)
      · rw [if_neg h1]
        cases p.parsed with
        | none =>
          exact (by decide : Server.acquireCount
            [Server.Ev.acquire, Server.Ev.spawn, Server.Ev.release] = 1)
        | some doc =>
          exact (by decide : Server.acquireCount
            [Server.Ev.acquire, Server.Ev.spawn, Server.Ev.release] = 1)
  · intro tok auth b t c hc hok
    unfold Server.ask_stream at hok
    cases hv : Server.verify_auth tok auth with
    | error e => rw [hv] at hok; exact absurd hok (by simp)
    | ok u =>
      rw [hv] at hok
      have := generate_slotOk b hc
      cases hg : Server.generate b with
      | mk t' c' =>
        rw [hg] at hok this
        obtain ⟨rfl, rfl⟩ : t' = t ∧ c' = c := by
          cases hok; exact ⟨rfl, rfl⟩
        exact this

/-- C1 witness: a concrete buffered timeout request and a concrete completed
stream request both satisfy the slot discipline. -/
theorem C1_witness :
    Server.slotOk
      (Server.ask "t" (some "Bearer t") Server.RunOutcome.timesOut).1 ∧
    Server.slotOk (Server.generate ⟨["hi"], true, true⟩).1 := by
  constructor
  · exact C1_slot_released_every_path.1 "t" (some "Bearer t") _
  · exact (C1_slot_released_every_path.2.2 "t" (some "Bearer t")
      ⟨["hi"], true, true⟩ (Server.generate ⟨["hi"], true, true⟩).1
      (Server.generate ⟨["hi"], true, true⟩).2 rfl rfl).1

/-- C5: whenever the buffered agent subprocess exceeds the 300 s wall-clock
timeout, the request fails with status 504, the subprocess is killed, and
the execution slot is released before the handler returns. -/
theorem C5_buffered_timeout (tok : String) (auth : Option String)
    (hauth : Server.verify_auth tok auth = Except.ok ()) :
    (Server.ask tok auth Server.RunOutcome.timesOut).2 =
      Except.error ⟨504, "Claude timed out (120s)"⟩ ∧
    Server.Ev.kill ∈ (Server.ask tok auth Server.RunOutcome.timesOut).1 ∧
    Server.slotOk (Server.ask tok auth Server.RunOutcome.timesOut).1 := by
  unfold Server.ask
  rw [hauth]
  exact ⟨rfl, by decide, by decide⟩

/-- C5 witness: concrete authorized timeout request. -/
theorem C5_witness :
    Server.verify_auth "tk" (some "Bearer tk") = Except.ok () ∧
    (Server.ask "tk" (some "Bearer tk") Server.RunOutcome.timesOut).2 =
      Except.error ⟨504, "Claude timed out (120s)"⟩ :=
  ⟨rfl, (C5_buffered_timeout "tk" (some "Bearer tk") rfl).1⟩

/-- Helper: the relay loop never produces a kill event. -/
theorem kill_not_mem_lineFrames (ls : List String) :
    Server.Ev.kill ∉ Server.lineFrames ls := by
  intro hmem
  obtain ⟨s, hs⟩ := lineFrames_only_frames ls _ hmem
  exact Server.Ev.noConfusion hs

/-- Helper: lock events carry no frame. -/
theorem framesOf_cons_acquire (t : List Server.Ev) :
    Server.framesOf (Server.Ev.acquire :: t) = Server.framesOf t := by
  simp [Server.framesOf, List.filterMap_cons]

/-- Helper: spawn events carry no frame. -/
theorem framesOf_cons_spawn (t : List Server.Ev) :
    Server.framesOf (Server.Ev.spawn :: t) = Server.framesOf t := by
  simp [Server.framesOf, List.filterMap_cons]

/-- Helper: framesOf distributes over append. -/
theorem framesOf_append (t u : List Server.Ev) :
    Server.framesOf (t ++ u) = Server.framesOf t ++ Server.framesOf u := by
  simp [Server.framesOf, List.filterMap_append]

/-- Helper: the SSE frames of the relay loop are exactly the stripped,
nonempty lines, in order, each wrapped as a data frame. -/
theorem framesOf_lineFrames (ls : List String) :
    Server.framesOf (Server.lineFrames ls) =
      ((ls.map pyStrip).filter (fun d => d ≠ "")).map
        (fun d => "data: " ++ d ++ "\n\n") := by
  induction ls with
  | nil => rfl
  | cons l ls ih =>
    by_cases h : pyStrip l = "" <;>
      simp [Server.lineFrames, Server.framesOf, List.filterMap_cons, h,
        List.filter_cons] at ih ⊢ <;>
      exact ih

/-- C3 counterexample: a subprocess that keeps its stdout open past the
120 s deadline (`stdoutCloses = false`) is never killed, no timeout error
event is emitted, and the generator never completes — the claimed hard
bound on total subprocess wall time does not hold for this output
pattern. -/
theorem C3_counterexample :
    Server.Ev.kill ∉ (Server.generate ⟨[], false, false⟩).1 ∧
    Server.Ev.frame Server.timeoutFrame ∉
      (Server.generate ⟨[], false, false⟩).1 ∧
    (Server.generate ⟨[], false, false⟩).2 = false := by
  decide

/-- C3 (amended): the streaming deadline (120 s) is shorter than the
buffered one (300 s), but it governs only the wait for subprocess exit
after stdout reaches EOF: whenever the subprocess has closed stdout and
fails to exit within 120 s, it is killed exactly once and exactly one
final error frame carrying the timeout indicator is emitted before the
sentinel; a subprocess that keeps stdout open is not subject to any
deadline. -/
theorem C3_stream_timeout_after_eof (b : Server.StreamBehavior)
    (hc : b.stdoutCloses = true) (ht : b.exitsWithinTimeout = false) :
    Server.streamTimeout < Server.bufferedTimeout ∧
    (Server.generate b).1.count Server.Ev.kill = 1 ∧
    Server.framesOf (Server.generate b).1 =
      Server.framesOf (Server.lineFrames b.lines) ++
        [Server.timeoutFrame, Server.doneFrame] ∧
    (Server.generate b).2 = true := by
  have hg : (Server.generate b).1 =
      Server.Ev.acquire :: Server.Ev.spawn ::
        (Server.lineFrames b.lines ++
          [Server.Ev.kill, Server.Ev.frame Server.timeoutFrame,
           Server.Ev.frame Server.doneFrame, Server.Ev.release]) := by
    simp [Server.generate, hc, ht]
  have hg2 : (Server.generate b).2 = true := by
    simp [Server.generate, hc, ht]
  refine ⟨by decide, ?_, ?_, hg2⟩
  · rw [hg]
    simp [List.count_cons, List.count_append,
      List.count_eq_zero.mpr (kill_not_mem_lineFrames b.lines)]
  · rw [hg, framesOf_cons_acquire, framesOf_cons_spawn, framesOf_append]
    simp [Server.framesOf, List.filterMap_cons]

/-- C3 witness: a concrete behaviour (stdout closed, exit overdue) where the
kill and the single timeout frame happen. -/
theorem C3_witness :
    (Server.generate ⟨["x"], true, false⟩).1.count Server.Ev.kill = 1 ∧
    Server.framesOf (Server.generate ⟨["x"], true, false⟩).1 =
      Server.framesOf (Server.lineFrames ["x"]) ++
        [Server.timeoutFrame, Server.doneFrame] :=
  ⟨(C3_stream_timeout_after_eof ⟨["x"], true, false⟩ rfl rfl).2.1,
   (C3_stream_timeout_after_eof ⟨["x"], true, false⟩ rfl rfl).2.2.1⟩

/-- C4 counterexample: a subprocess emitting the single line `""` (a blank
line) yields zero data frames, not one frame per line — lines are stripped
and whitespace-only lines are dropped, so N lines do not always give N
frames. -/
theorem C4_counterexample :
    Server.framesOf (Server.generate ⟨[""], true, true⟩).1 ≠
      (([""] : List String).map (fun l => "data: " ++ l ++ "\n\n")) ++
        [Server.doneFrame] := by
  decide

/-- C4 (amended): in streaming mode, every line that is nonempty after
whitespace-stripping is relayed in order as one `data:` frame (stripped,
not byte-verbatim); whitespace-only lines are dropped; the final frame is
always the `[DONE]` sentinel on both termination paths of the generator,
preceded on the timeout path by one error frame. -/
theorem C4_stream_relay_order (b : Server.StreamBehavior)
    (hc : b.stdoutCloses = true) :
    Server.framesOf (Server.generate b).1 =
      ((b.lines.map pyStrip).filter (fun d => d ≠ "")).map
          (fun d => "data: " ++ d ++ "\n\n") ++
        (if b.exitsWithinTimeout then [] else [Server.timeoutFrame]) ++
        [Server.doneFrame] ∧
    (Server.framesOf (Server.generate b).1).getLast? =
      some Server.doneFrame := by
  have hfr : Server.framesOf (Server.generate b).1 =
      ((b.lines.map pyStrip).filter (fun d => d ≠ "")).map
          (fun d => "data: " ++ d ++ "\n\n") ++
        (if b.exitsWithinTimeout then [] else [Server.timeoutFrame]) ++
        [Server.doneFrame] := by
    rcases Bool.eq_false_or_eq_true b.exitsWithinTimeout with he | he
    · have hg : (Server.generate b).1 =
          Server.Ev.acquire :: Server.Ev.spawn ::
            (Server.lineFrames b.lines ++
              [Server.Ev.frame Server.doneFrame, Server.Ev.release]) := by
        simp [Server.generate, hc, he]
      rw [hg, framesOf_cons_acquire, framesOf_cons_spawn, framesOf_append,
        framesOf_lineFrames, he]
      simp [Server.framesOf, List.filterMap_cons]
    · have hg : (Server.generate b).1 =
          Server.Ev.acquire :: Server.Ev.spawn ::
            (Server.lineFrames b.lines ++
              [Server.Ev.kill, Server.Ev.frame Server.timeoutFrame,
               Server.Ev.frame Server.doneFrame, Server.Ev.release]) := by
        simp [Server.generate, hc, he]
      rw [hg, framesOf_cons_acquire, framesOf_cons_spawn, framesOf_append,
        framesOf_lineFrames, he]
      simp [Server.framesOf, List.filterMap_cons]
  refine ⟨hfr, ?_⟩
  rw [hfr]
  exact List.getLast?_concat _

/-- C4 witness: a concrete line sequence with surrounding whitespace and a
blank line, relayed in order with a final sentinel. -/
theorem C4_witness :
    Server.framesOf (Server.generate ⟨[" a ", "", "b"], true, true⟩).1 =
      ((([" a ", "", "b"] : List String).map pyStrip).filter
          (fun d => d ≠ "")).map (fun d => "data: " ++ d ++ "\n\n") ++
        [] ++ [Server.doneFrame] := by
  have h := (C4_stream_relay_order ⟨[" a ", "", "b"], true, true⟩ rfl).1
  simpa using h

/-- C6: `get_auth_token` always attempts the claim first; on success it
persists the token to the cache before returning it; it fails with the
terminal CredentialsUnavailable `RuntimeError` exactly when the claim
reported the distinguished 410 "already claimed" status and the cache
yields no (truthy) token; transport errors and unexpected HTTP statuses
propagate unchanged and are never treated as "already claimed". -/
theorem C6_get_auth_token_contract :
    (∀ (name : String) (r : Auth.HttpResult) (f : Auth.CacheFile)
       (t : String), Auth.claim_auth_token r = Except.ok t →
       Auth.get_auth_token name r f =
         ([Auth.AuthEv.claimRequest, Auth.AuthEv.saveToken name t],
          Except.ok (Auth.PyJson.str t))) ∧
    (∀ (name : String) (b : Option String) (f : Auth.CacheFile),
       Auth.load_cached_token f = Except.ok none →
       (Auth.get_auth_token name (Auth.HttpResult.response 410 b) f).2 =
         Except.error (Auth.PyError.runtimeError Auth.alreadyClaimedMsg)) ∧
    (∀ (name : String) (r : Auth.HttpResult) (f : Auth.CacheFile),
       (Auth.get_auth_token name r f).2 =
         Except.error (Auth.PyError.runtimeError Auth.alreadyClaimedMsg) →
       (∃ b, r = Auth.HttpResult.response 410 b) ∧
       (∀ v, Auth.load_cached_token f = Except.ok (some v) →
          Auth.pyTruthy v = false)) ∧
    (∀ (name m : String) (f : Auth.CacheFile),
       (Auth.get_auth_token name (Auth.HttpResult.transportFailure m) f).2 =
         Except.error (Auth.PyError.httpxTransport m)) ∧
    (∀ (name : String) (status : Nat) (b : Option String)
       (f : Auth.CacheFile), 400 ≤ status → status ≠ 410 →
       (Auth.get_auth_token name (Auth.HttpResult.response status b) f).2 =
         Except.error (Auth.PyError.httpStatusError status)) := by
  refine ⟨?_, ?_, ?_, ?_, ?_⟩
  · intro name r f t hclaim
    unfold Auth.get_auth_token
    rw [hclaim]
  · intro name b f hload
    simp [Auth.get_auth_token, Auth.claim_auth_token, hload]
  · intro name r f hterm
    cases r with
    | transportFailure m =>
      exact absurd hterm (by simp [Auth.get_auth_token, Auth.claim_auth_token])
    | response status tokenField =>
      by_cases h410 : status = 410
      · subst h410
        refine ⟨⟨tokenField, rfl⟩, ?_⟩
        intro v hload
        by_cases htr : Auth.pyTruthy v = true
        · simp [Auth.get_auth_token, Auth.claim_auth_token, hload, htr]
            at hterm
        · simpa using htr
      · exfalso
        by_cases h4 : 400 ≤ status
        · simp [Auth.get_auth_token, Auth.claim_auth_token, h410, h4] at hterm
        · cases tokenField <;>
            simp [Auth.get_auth_token, Auth.claim_auth_token, h410, h4]
              at hterm
  · intro name m f
    rfl
  · intro name status b f h4 h410
    simp [Auth.get_auth_token, Auth.claim_auth_token, h410, h4]

/-- C6 witness: concrete successful claim, concrete already-claimed with an
empty cache, and a concrete 500-status propagation. -/
theorem C6_witness :
    Auth.claim_auth_token (Auth.HttpResult.response 200 (some "tk")) =
      Except.ok "tk" ∧
    Auth.get_auth_token "cs" (Auth.HttpResult.response 200 (some "tk"))
        Auth.CacheFile.missing =
      ([Auth.AuthEv.claimRequest, Auth.AuthEv.saveToken "cs" "tk"],
       Except.ok (Auth.PyJson.str "tk")) ∧
    Auth.load_cached_token Auth.CacheFile.missing = Except.ok none ∧
    (Auth.get_auth_token "cs" (Auth.HttpResult.response 410 none)
        Auth.CacheFile.missing).2 =
      Except.error (Auth.PyError.runtimeError Auth.alreadyClaimedMsg) ∧
    (Auth.get_auth_token "cs" (Auth.HttpResult.response 500 none)
        Auth.CacheFile.missing).2 =
      Except.error (Auth.PyError.httpStatusError 500) :=
  ⟨rfl,
   C6_get_auth_token_contract.1 "cs" (Auth.HttpResult.response 200 (some "tk"))
     Auth.CacheFile.missing "tk" rfl,
   rfl,
   C6_get_auth_token_contract.2.1 "cs" none Auth.CacheFile.missing rfl,
   C6_get_auth_token_contract.2.2.2.2 "cs" 500 none Auth.CacheFile.missing
     (by decide) (by decide)⟩

/-- C10 counterexample: a cache file holding valid JSON that is not an
object — `[]` — lacks a `token` field, yet `_load_cached_token` raises
`AttributeError` (not caught by the `(json.JSONDecodeError, OSError)`
handler), and `get_auth_token` after an "already claimed" response
propagates that error instead of failing with the terminal
CredentialsUnavailable error. -/
theorem C10_counterexample :
    Auth.load_cached_token (Auth.CacheFile.parsed (Auth.PyJson.arr [])) =
      Except.error (Auth.PyError.attributeError "get") ∧
    (Auth.get_auth_token "cs" (Auth.HttpResult.response 410 none)
        (Auth.CacheFile.parsed (Auth.PyJson.arr []))).2 =
      Except.error (Auth.PyError.attributeError "get") :=
  ⟨rfl, rfl⟩

/-- C10 (amended): a missing, unreadable, or JSON-invalid cache file, and a
cache file parsed to a JSON *object* lacking a `token` field, all yield no
token without raising, and `get_auth_token` after an "already claimed"
response then fails with the terminal CredentialsUnavailable error; only a
valid-JSON non-object cache document raises instead. -/
theorem C10_corrupt_cache_like_absent (f : Auth.CacheFile)
    (h : f = Auth.CacheFile.missing ∨
         (∃ m, f = Auth.CacheFile.unreadable m) ∨
         f = Auth.CacheFile.invalidJson ∨
         (∃ fields, f = Auth.CacheFile.parsed (Auth.PyJson.obj fields) ∧
            Auth.dictGet fields "token" = none)) :
    Auth.load_cached_token f = Except.ok none ∧
    ∀ (name : String) (b : Option String),
      (Auth.get_auth_token name (Auth.HttpResult.response 410 b) f).2 =
        Except.error (Auth.PyError.runtimeError Auth.alreadyClaimedMsg) := by
  have hload : Auth.load_cached_token f = Except.ok none := by
    rcases h with rfl | ⟨m, rfl⟩ | rfl | ⟨fields, rfl, hfields⟩
    · rfl
    · rfl
    · rfl
    · simp [Auth.load_cached_token, hfields]
  refine ⟨hload, ?_⟩
  intro name b
  simp [Auth.get_auth_token, Auth.claim_auth_token, hload]

/-- C10 witness: a JSON-invalid cache file behaves like an absent one. -/
theorem C10_witness :
    Auth.load_cached_token Auth.CacheFile.invalidJson = Except.ok none ∧
    (Auth.get_auth_token "cs" (Auth.HttpResult.response 410 (some "x"))
        Auth.CacheFile.invalidJson).2 =
      Except.error (Auth.PyError.runtimeError Auth.alreadyClaimedMsg) := by
  have h := C10_corrupt_cache_like_absent Auth.CacheFile.invalidJson
    (Or.inr (Or.inr (Or.inl rfl)))
  exact ⟨h.1, h.2 "cs" (some "x")⟩

/-- C7: `find_or_create` on an `Available` session returns its name with no
mutating call; on a `Shutdown`/`ShuttingDown` session it issues exactly one
`start`, before the polling; in every execution `create` and each `start`
are issued at most once. -/
theorem C7_find_or_create_mutations :
    (∀ (env : Codespace.FindEnv) (name : String),
       env.found = some (name, "Available") →
       Codespace.find_or_create env =
         ([Codespace.Call.findList], Except.ok name)) ∧
    (∀ (env : Codespace.FindEnv) (name state : String),
       env.found = some (name, state) →
       (state = "Shutdown" ∨ state = "ShuttingDown") →
       (Codespace.find_or_create env).1 =
         [Codespace.Call.findList, Codespace.Call.start name,
          Codespace.Call.waitPolls name]) ∧
    (∀ env : Codespace.FindEnv,
       (Codespace.find_or_create env).1.count Codespace.Call.create ≤ 1 ∧
       ∀ n, (Codespace.find_or_create env).1.count
          (Codespace.Call.start n) ≤ 1) := by
  refine ⟨?_, ?_, ?_⟩
  · intro env name hfound
    simp [Codespace.find_or_create, hfound]
  · intro env name state hfound hstate
    have hne : ¬ state = "Available" := by
      rcases hstate with rfl | rfl <;> decide
    simp [Codespace.find_or_create, hfound, hne, hstate]
  · intro env
    rcases henv : env.found with - | ⟨name, state⟩
    · constructor <;>
        simp [Codespace.find_or_create, henv, List.count_cons]
    · by_cases hav : state = "Available"
      · constructor <;> simp [Codespace.find_or_create, henv, hav]
      · by_cases hsd : state = "Shutdown" ∨ state = "ShuttingDown"
        · refine ⟨?_, ?_⟩
          · simp [Codespace.find_or_create, henv, hav, hsd, List.count_cons]
          · intro n
            by_cases hn : name = n <;>
              simp [Codespace.find_or_create, henv, hav, hsd,
                List.count_cons, hn]
        · constructor <;>
            simp [Codespace.find_or_create, henv, hav, hsd, List.count_cons]

/-- C7 witness: an `Available` session is returned with no mutating call; a
`Shutdown` session gets exactly one `start` before polling. -/
theorem C7_witness :
    Codespace.find_or_create ⟨some ("n1", "Available"), "x", true⟩ =
      ([Codespace.Call.findList], Except.ok "n1") ∧
    (Codespace.find_or_create ⟨some ("n2", "Shutdown"), "x", true⟩).1 =
      [Codespace.Call.findList, Codespace.Call.start "n2",
       Codespace.Call.waitPolls "n2"] :=
  ⟨C7_find_or_create_mutations.1 ⟨some ("n1", "Available"), "x", true⟩
     "n1" rfl,
   C7_find_or_create_mutations.2.1 ⟨some ("n2", "Shutdown"), "x", true⟩
     "n2" "Shutdown" rfl (Or.inl rfl)⟩

/-- Helper: the boot-wait loop terminates within one poll interval past the
deadline, and the only error it can produce is the `TimeoutError` message
naming the codespace and the configured deadline. -/
theorem waitLoop_bound (interval deadline : Nat) (hI : 0 < interval)
    (name : String) (states : Nat → String) :
    ∀ (fuel i now : Nat) (lastObs : Option String),
      deadline - now ≤ fuel → now < deadline + interval →
      (Codespace.waitLoop interval deadline hI name states i now
          lastObs).1 < deadline + interval ∧
      (∀ m, (Codespace.waitLoop interval deadline hI name states i now
          lastObs).2.2 = Except.error m →
        m = Codespace.bootTimeoutMsg name deadline) := by
  intro fuel
  induction fuel with
  | zero =>
    intro i now lastObs hf hb
    rw [Codespace.waitLoop, dif_neg (by omega)]
    exact ⟨hb, fun m hm => by simpa using hm.symm⟩
  | succ fuel ih =>
    intro i now lastObs hf hb
    rw [Codespace.waitLoop]
    by_cases hlt : now < deadline
    · rw [dif_pos hlt]
      by_cases hav : states i = "Available"
      · rw [if_pos hav]
        exact ⟨by omega, fun m hm => by simp at hm⟩
      · rw [if_neg hav]
        exact ih (i + 1) (now + interval) (some (states i)) (by omega)
          (by omega)
    · rw [dif_neg hlt]
      exact ⟨hb, fun m hm => by simpa using hm.symm⟩

/-- C8 (amended): the boot-wait loop always terminates, never past the
configured deadline by more than one polling interval, and on expiry yields
the distinct `TimeoutError` naming the codespace and the configured
deadline — but that error does not carry the last observed session state. -/
theorem C8_boot_wait_bounded (timeout interval : Nat) (hI : 0 < interval)
    (codespace_name : String) (states : Nat → String) :
    (Codespace.wait_until_available timeout interval hI codespace_name
        states).1 < timeout + interval ∧
    (∀ m, (Codespace.wait_until_available timeout interval hI codespace_name
        states).2.2 = Except.error m →
      m = Codespace.bootTimeoutMsg codespace_name timeout) := by
  unfold Codespace.wait_until_available
  exact waitLoop_bound interval timeout hI codespace_name states timeout 0 0
    none (by omega) (by omega)

/-- C8 counterexample: with deadline 2 and interval 1, a codespace that
stays in state `Starting` makes `wait_until_available` raise the timeout
error, and the last observed state (`Starting`) appears nowhere in the
raised error — the failure does not carry the last observed state. -/
theorem C8_counterexample :
    Codespace.wait_until_available 2 1 Nat.one_pos "cs1"
        (fun _ => "Starting") =
      (2, some "Starting",
       Except.error (Codespace.bootTimeoutMsg "cs1" 2)) ∧
    strContains (Codespace.bootTimeoutMsg "cs1" 2) "Starting" = false := by
  constructor
  · unfold Codespace.wait_until_available
    rw [Codespace.waitLoop, dif_pos (by omega), if_neg (by decide)]
    rw [Codespace.waitLoop, dif_pos (by omega), if_neg (by decide)]
    rw [Codespace.waitLoop, dif_neg (by omega)]
  · decide

/-- C8 witness: the amended bound at the counterexample's configuration. -/
theorem C8_witness :
    (Codespace.wait_until_available 2 1 Nat.one_pos "cs1"
        (fun _ => "Starting")).1 < 2 + 1 :=
  (C8_boot_wait_bounded 2 1 Nat.one_pos "cs1" (fun _ => "Starting")).1
